import Mathlib

/-!
Verification of the OVOS-workshop skill launcher (`ovos_workshop/skill_launcher.py`).

The development shallowly embeds the launcher's data model and operations:

* the process-wide module cache (`sys.modules`) as an association list from
  module names to module objects, with `remove_submodule_refs` and
  `load_skill_module`;
* the class resolver `get_skill_class` over a module's top-level definitions;
* the `SkillLoader` state machine (`_load`, `load`, `reload`, `unload`,
  `_unload`, `_create_skill_instance`, `_communicate_load_status`,
  `_start_filewatcher`, `_execute_instance_shutdown`) with bus emissions and
  other side effects recorded as an explicit action trace.

Python exceptions that escape a function are modelled with `Except Unit`;
exceptions that the source catches are folded into the corresponding branch.
-/

namespace OVOS

/-! ## Module cache layer (`remove_submodule_refs`, `load_skill_module`) -/

/-- A module object living in `sys.modules`.  `version` is the generation
stamp of the execution that created it (a fresh load uses a strictly larger
stamp than everything already in the cache), `defines` the set of top-level
names (classes, globals) the executed source defined. -/
structure ModuleObj where
  version : Nat
  defines : List String
deriving DecidableEq, Repr

/-- The on-disk source for one skill main file: its top-level definitions and
the submodules it imports while executing (relative name, their definitions). -/
structure DiskSource where
  defines : List String
  submodules : List (String × List String)
deriving DecidableEq, Repr

/-- `sys.modules`, as an association list (first binding wins on lookup). -/
abbrev SysModules := List (String × ModuleObj)

/-- Python `str.replace('.', '_')` for the single-character pattern used by
`load_skill_module`: map each dot to an underscore. -/
def replaceDots (sid : String) : String :=
  ⟨sid.data.map (fun c => if c = '.' then '_' else c)⟩

/-- Whether `p` is a prefix of the character list `s`. -/
def charsPrefix : List Char → List Char → Bool
  | [], _ => true
  | _ :: _, [] => false
  | a :: as, b :: bs => a == b && charsPrefix as bs

/-- Python `str.startswith(p)`, as used by `remove_submodule_refs`'s key
scan. -/
def strStartsWith (s p : String) : Bool :=
  charsPrefix p.data s.data

/-- `remove_submodule_refs` from `skill_launcher.py`: drop every cache entry
whose key is namespaced under `module_name` (starts with `module_name + "."`).
The source first collects those keys and then deletes each one from the dict;
on a keyed map this equals a single filter over the keys. -/
def remove_submodule_refs (sysM : SysModules) (module_name : String) : SysModules :=
  sysM.filter (fun p => !(strStartsWith p.1 (module_name ++ ".")))

/-- A (sub)module import performed while executing module source: Python's
importer first consults `sys.modules` and only registers a fresh entry
when the key is absent (memoisation). -/
def registerSubmodule (sysM : SysModules) (k : String) (m : ModuleObj) : SysModules :=
  if (sysM.lookup k).isSome then sysM else (k, m) :: sysM

/-- `load_skill_module` from `skill_launcher.py`: derive the module name from
the skill id (dots replaced by underscores), purge the namespaced cache
entries, then execute the source at `path` freshly (generation `gen`),
registering the new module object under the module name before execution and
registering each submodule import during execution.  A missing file or a
raising source propagates the exception (`.error`). -/
def load_skill_module (sysM : SysModules) (disk : List (String × DiskSource))
    (path skill_id : String) (gen : Nat) : Except Unit (ModuleObj × SysModules) :=
  let module_name := replaceDots skill_id
  let sysM1 := remove_submodule_refs sysM module_name
  match disk.lookup path with
  | none => .error ()
  | some src =>
      let mod : ModuleObj := ⟨gen, src.defines⟩
      -- dict assignment `sys.modules[module_name] = mod`: the new binding
      -- shadows any previous one under lookup
      let sysM2 := (module_name, mod) :: sysM1
      let sysM3 := src.submodules.foldl
        (fun acc sub => registerSubmodule acc (module_name ++ "." ++ sub.1) ⟨gen, sub.2⟩)
        sysM2
      .ok (mod, sysM3)

lemma sys_lookup_cons (k k' : String) (v : ModuleObj) (t : SysModules) :
    (((k', v) :: t).lookup k) = if k = k' then some v else t.lookup k := by
  by_cases h : k = k'
  · subst h; simp [List.lookup]
  · have hb : (k == k') = false := beq_eq_false_iff_ne.mpr h
    simp [List.lookup, hb, h]

lemma remove_submodule_refs_lookup (sysM : SysModules) (mn k : String) :
    (remove_submodule_refs sysM mn).lookup k =
      if strStartsWith k (mn ++ ".") then none else sysM.lookup k := by
  induction sysM with
  | nil => simp [remove_submodule_refs]
  | cons hd tl ih =>
      obtain ⟨a, v⟩ := hd
      simp only [remove_submodule_refs, List.filter_cons] at ih ⊢
      by_cases hpre : strStartsWith a (mn ++ ".")
      · by_cases hk : strStartsWith k (mn ++ ".")
        · simpa [hpre, hk] using ih
        · have hne : k ≠ a := fun h => hk (h ▸ hpre)
          simp only [hpre, Bool.not_true, Bool.false_eq_true, if_false, sys_lookup_cons,
            if_neg hne]
          simpa [hk] using ih
      · simp only [hpre, Bool.not_false, if_true, sys_lookup_cons]
        by_cases heq : k = a
        · subst heq
          simp [hpre]
        · rw [if_neg heq, if_neg heq, ih]

lemma register_fold_lookup_mn (mn : String) (gen : Nat)
    (subs : List (String × List String)) :
    ∀ (acc : SysModules) (v : ModuleObj), acc.lookup mn = some v →
      (subs.foldl (fun acc sub =>
          registerSubmodule acc (mn ++ "." ++ sub.1) ⟨gen, sub.2⟩) acc).lookup mn
        = some v := by
  induction subs with
  | nil => intro acc v h; exact h
  | cons sub rest ih =>
      intro acc v h
      simp only [List.foldl_cons]
      apply ih
      unfold registerSubmodule
      by_cases hmem : (acc.lookup (mn ++ "." ++ sub.1)).isSome = true
      · rw [if_pos hmem]; exact h
      · have hne : mn ≠ mn ++ "." ++ sub.1 := by
          intro heq
          have hlen := congrArg String.length heq
          rw [String.length_append, String.length_append] at hlen
          have hone : ("." : String).length = 1 := rfl
          omega
        rw [if_neg hmem, sys_lookup_cons, if_neg hne]
        exact h

lemma register_fold_version (mn : String) (gen : Nat)
    (subs : List (String × List String)) (k : String) :
    ∀ (acc : SysModules),
      (∀ e, acc.lookup k = some e → e.version = gen) →
      ∀ e, (subs.foldl (fun acc sub =>
          registerSubmodule acc (mn ++ "." ++ sub.1) ⟨gen, sub.2⟩) acc).lookup k
        = some e → e.version = gen := by
  induction subs with
  | nil => intro acc h e; exact h e
  | cons sub rest ih =>
      intro acc h e
      simp only [List.foldl_cons]
      apply ih
      intro e'
      unfold registerSubmodule
      by_cases hmem : (acc.lookup (mn ++ "." ++ sub.1)).isSome = true
      · rw [if_pos hmem]; exact h e'
      · rw [if_neg hmem, sys_lookup_cons]
        by_cases heq : k = mn ++ "." ++ sub.1
        · rw [if_pos heq]; intro hsome; cases hsome; rfl
        · rw [if_neg heq]; exact h e'

/-- C2 — Stale-state purge on module load.  Whenever `load_skill_module`
succeeds: (1) the purge step removed every cache entry namespaced under the
module name; (2) the returned module object is freshly built from the current
on-disk source (generation `gen`); (3) it is registered in the resulting
cache under the module name; (4) every entry that resolves under the module's
namespace afterwards carries the fresh generation — nothing defined only in a
previously loaded version (generation `< gen`) remains resolvable. -/
theorem load_skill_module_purges_stale
    (sysM : SysModules) (disk : List (String × DiskSource))
    (path skill_id : String) (gen : Nat) (m : ModuleObj) (sysM' : SysModules)
    (h : load_skill_module sysM disk path skill_id gen = .ok (m, sysM')) :
    (∀ k, strStartsWith k (replaceDots skill_id ++ ".") = true →
        (remove_submodule_refs sysM (replaceDots skill_id)).lookup k = none) ∧
    (∃ src, disk.lookup path = some src ∧ m = ⟨gen, src.defines⟩) ∧
    (sysM'.lookup (replaceDots skill_id) = some m) ∧
    (∀ k e, strStartsWith k (replaceDots skill_id ++ ".") = true →
        sysM'.lookup k = some e → e.version = gen) := by
  unfold load_skill_module at h
  set mn := replaceDots skill_id with hmn
  refine ⟨fun k hk => by simp [remove_submodule_refs_lookup, hk], ?_⟩
  rcases hdisk : disk.lookup path with _ | src
  · rw [hdisk] at h; exact absurd h (by simp)
  · rw [hdisk] at h
    simp only [Except.ok.injEq, Prod.mk.injEq] at h
    obtain ⟨hm, hsys⟩ := h
    subst hm
    subst hsys
    refine ⟨⟨src, rfl, rfl⟩, ?_, ?_⟩
    · -- the module name is registered and never shadowed by submodule keys
      apply register_fold_lookup_mn
      rw [sys_lookup_cons, if_pos rfl]
    · -- every surviving namespaced entry carries the fresh generation
      intro k e hk
      apply register_fold_version
      intro e'
      rw [sys_lookup_cons]
      by_cases heq : k = mn
      · rw [if_pos heq]
        intro hsome
        cases hsome
        rfl
      · rw [if_neg heq, remove_submodule_refs_lookup, if_pos hk]
        intro hsome
        exact absurd hsome (by simp)

/-! ## Class resolver (`get_skill_class`) -/

/-- A Python class object: a class identity and the identities of all classes
in its method-resolution order (itself included), so `issubclass a b` is
`b.cid ∈ a.ancestors`.  Distinct class objects are structurally distinct. -/
structure PyClass where
  cid : Nat
  ancestors : List Nat
deriving DecidableEq, Repr

/-- `issubclass(a, b)`. -/
def pyIssubclass (a b : PyClass) : Bool :=
  a.ancestors.contains b.cid

/-- A top-level binding in a module's `__dict__`: a class or anything else
(`isclass` fails on the latter). -/
inductive PyObj where
  | cls (c : PyClass)
  | nonclass
deriving DecidableEq, Repr

/-- `SKILL_BASE_CLASSES` from `skill_launcher.py`.  The concrete base-class
objects live in files outside the loader; they are modelled as opaque class
values (the duplicate `OVOSFallbackSkill` entry of the source list is kept).
Only their identities and the subclass relation of user classes against them
matter to the resolver. -/
def BaseSkill : PyClass := ⟨0, [0]⟩
def MycroftSkill : PyClass := ⟨1, [1, 0]⟩
def OVOSSkill : PyClass := ⟨2, [2, 1, 0]⟩
def OVOSFallbackSkill : PyClass := ⟨3, [3, 8, 2, 1, 0]⟩
def OVOSCommonPlaybackSkill : PyClass := ⟨4, [4, 2, 1, 0]⟩
def CommonQuerySkill : PyClass := ⟨5, [5, 1, 0]⟩
def ActiveSkill : PyClass := ⟨6, [6, 1, 0]⟩
def FallbackSkill : PyClass := ⟨8, [8, 1, 0]⟩
def UniversalSkill : PyClass := ⟨9, [9, 2, 1, 0]⟩
def UniversalFallback : PyClass := ⟨10, [10, 9, 8, 2, 1, 0]⟩

def SKILL_BASE_CLASSES : List PyClass :=
  [BaseSkill, MycroftSkill, OVOSSkill, OVOSFallbackSkill,
   OVOSCommonPlaybackSkill, OVOSFallbackSkill, CommonQuerySkill, ActiveSkill,
   FallbackSkill, UniversalSkill, UniversalFallback]

/-- The candidate-collection loop of `get_skill_class`: top-level classes that
subclass at least one known base class and are not themselves one of the base
classes, in `__dict__` (insertion) order. -/
def initialCandidates (entries : List (String × PyObj)) : List PyClass :=
  entries.filterMap fun e =>
    match e.2 with
    | .cls obj =>
        if (SKILL_BASE_CLASSES.any fun c => pyIssubclass obj c)
            && !(SKILL_BASE_CLASSES.any fun c => obj = c)
        then some obj else none
    | .nonclass => none

/-- The supertype-removal loop of `get_skill_class`: iterate over a copy of
the initial candidate list; for each candidate, if some *other* member of the
current list is a subclass of it, remove it (Python `list.remove`: first
occurrence). -/
def prune (r : PyClass → PyClass → Bool) : List PyClass → List PyClass → List PyClass
  | [], cur => cur
  | c :: todo, cur =>
      if (cur.filter fun z => z ≠ c).any (fun z => r z c)
      then prune r todo (cur.erase c)
      else prune r todo cur

/-- The input to class resolution: a directly-callable plugin (class or
factory), or a module with its top-level definitions. -/
inductive ResolveInput where
  | callable (f : Nat)
  | module (entries : List (String × PyObj))
deriving DecidableEq, Repr

/-- The resolver's result. -/
inductive ResolvedSkill where
  | callable (f : Nat)
  | cls (c : PyClass)
deriving DecidableEq, Repr

/-- `get_skill_class` from `skill_launcher.py`. -/
def get_skill_class : ResolveInput → Option ResolvedSkill
  | .callable f => some (.callable f)
  | .module entries =>
      let candidates := initialCandidates entries
      let final := prune pyIssubclass candidates candidates
      match final with
      | c :: _ => some (.cls c)
      | [] => none

lemma prune_sublist (r : PyClass → PyClass → Bool) :
    ∀ todo cur, List.Sublist (prune r todo cur) cur := by
  intro todo
  induction todo with
  | nil => intro cur; exact List.Sublist.refl cur
  | cons c todo ih =>
      intro cur
      unfold prune
      by_cases h : ((cur.filter fun z => z ≠ c).any (fun z => r z c)) = true
      · rw [if_pos h]
        exact (ih (cur.erase c)).trans (List.erase_sublist c cur)
      · rw [if_neg h]
        exact ih cur

lemma prune_cond_iff (r : PyClass → PyClass → Bool) (cur : List PyClass) (c : PyClass) :
    ((cur.filter fun z => z ≠ c).any (fun z => r z c) = true) ↔
      ∃ z ∈ cur, z ≠ c ∧ r z c = true := by
  constructor
  · intro h
    obtain ⟨z, hz, hr⟩ := List.any_eq_true.mp h
    obtain ⟨hzc, hne⟩ := List.mem_filter.mp hz
    exact ⟨z, hzc, by simpa using hne, hr⟩
  · rintro ⟨z, hzc, hne, hr⟩
    exact List.any_eq_true.mpr ⟨z, List.mem_filter.mpr ⟨hzc, by simpa using hne⟩, hr⟩

lemma prune_maximal_mem (r : PyClass → PyClass → Bool) :
    ∀ todo cur c, c ∈ cur → (∀ z ∈ cur, z ≠ c → r z c = false) →
      c ∈ prune r todo cur := by
  intro todo
  induction todo with
  | nil => intro cur c hc _; exact hc
  | cons d todo ih =>
      intro cur c hc hmax
      unfold prune
      by_cases h : ((cur.filter fun z => z ≠ d).any (fun z => r z d)) = true
      · rw [if_pos h]
        have hcd : c ≠ d := by
          rintro rfl
          obtain ⟨z, hz, hne, hr⟩ := (prune_cond_iff r cur c).mp h
          exact absurd hr (by simp [hmax z hz hne])
        refine ih (cur.erase d) c ((List.mem_erase_of_ne hcd).mpr hc) ?_
        intro z hz hne
        exact hmax z (List.mem_of_mem_erase hz) hne
      · rw [if_neg h]
        exact ih cur c hc hmax

lemma prune_removed (r : PyClass → PyClass → Bool) :
    ∀ todo cur c m, cur.Nodup → c ∈ todo → m ∈ cur → m ≠ c → r m c = true →
      (∀ z ∈ cur, z ≠ m → r z m = false) → c ∉ prune r todo cur := by
  intro todo
  induction todo with
  | nil => intro cur c m _ hc; exact absurd hc (List.not_mem_nil c)
  | cons d todo ih =>
      intro cur c m hnd hc hm hmc hr hmmax
      by_cases hcur : c ∈ cur
      · by_cases hdc : d = c
        · subst hdc
          unfold prune
          have hcond : ((cur.filter fun z => z ≠ d).any (fun z => r z d)) = true :=
            (prune_cond_iff r cur d).mpr ⟨m, hm, hmc, hr⟩
          rw [if_pos hcond]
          intro hmem
          have : d ∈ cur.erase d := (prune_sublist r todo (cur.erase d)).subset hmem
          exact absurd ((hnd.mem_erase_iff).mp this).1 (by simp)
        · have hc' : c ∈ todo := by
            rcases List.mem_cons.mp hc with h | h
            · exact absurd h.symm hdc
            · exact h
          unfold prune
          by_cases hcond : ((cur.filter fun z => z ≠ d).any (fun z => r z d)) = true
          · rw [if_pos hcond]
            have hmd : m ≠ d := by
              rintro rfl
              obtain ⟨z, hz, hne, hrz⟩ := (prune_cond_iff r cur m).mp hcond
              exact absurd hrz (by simp [hmmax z hz hne])
            refine ih (cur.erase d) c m (hnd.erase d) hc'
              ((List.mem_erase_of_ne hmd).mpr hm) hmc hr ?_
            intro z hz hne
            exact hmmax z (List.mem_of_mem_erase hz) hne
          · rw [if_neg hcond]
            exact ih cur c m hnd hc' hm hmc hr hmmax
      · intro hmem
        exact hcur ((prune_sublist r (d :: todo) cur).subset hmem)

lemma exists_minimal (r : PyClass → PyClass → Bool) :
    ∀ (l : List PyClass), l ≠ [] →
      (∀ a ∈ l, ∀ b ∈ l, ∀ c ∈ l, r a b = true → r b c = true → r a c = true) →
      (∀ a ∈ l, ∀ b ∈ l, a ≠ b → r a b = true → r b a = false) →
      ∃ m ∈ l, ∀ z ∈ l, z ≠ m → r z m = false := by
  intro l
  induction l with
  | nil => intro h; exact absurd rfl h
  | cons a l ih =>
      intro _ htrans hanti
      rcases hl : l with _ | ⟨b, l'⟩
      · exact ⟨a, by simp, by simp⟩
      · rw [← hl]
        have hlne : l ≠ [] := by rw [hl]; simp
        obtain ⟨m, hm, hmmax⟩ := ih hlne
          (fun x hx y hy z hz => htrans x (by simp [hx]) y (by simp [hy]) z (by simp [hz]))
          (fun x hx y hy => hanti x (by simp [hx]) y (by simp [hy]))
        by_cases ham : a ≠ m ∧ r a m = true
        · -- `a` is below `m`: `a` is minimal in `a :: l`
          refine ⟨a, by simp, ?_⟩
          intro z hz hza
          rcases List.mem_cons.mp hz with rfl | hzl
          · exact absurd rfl hza
          · by_cases hzm : z = m
            · subst hzm
              exact hanti a (by simp) z (by simp [hzl]) ham.1 ham.2
            · by_cases hrza : r z a = true
              · have hrzm : r z m = true :=
                  htrans z (by simp [hzl]) a (by simp) m (by simp [hm]) hrza ham.2
                exact absurd hrzm (by simp [hmmax z hzl hzm])
              · exact Bool.eq_false_iff.mpr hrza
        · -- nothing in `l` is strictly below `m`, and `a` is not either
          refine ⟨m, by simp [hm], ?_⟩
          intro z hz hzm
          rcases List.mem_cons.mp hz with rfl | hzl
          · rcases not_and_or.mp ham with h | h
            · exact absurd (not_not.mp h) hzm
            · exact Bool.eq_false_iff.mpr (fun hc => h hc)
          · exact hmmax z hzl hzm

lemma exists_dominating_maximal (r : PyClass → PyClass → Bool)
    (l : List PyClass) (c z0 : PyClass)
    (hc : c ∈ l) (hz0 : z0 ∈ l) (hz0c : z0 ≠ c) (hrz0 : r z0 c = true)
    (htrans : ∀ a ∈ l, ∀ b ∈ l, ∀ d ∈ l, r a b = true → r b d = true → r a d = true)
    (hanti : ∀ a ∈ l, ∀ b ∈ l, a ≠ b → r a b = true → r b a = false) :
    ∃ m ∈ l, m ≠ c ∧ r m c = true ∧ ∀ z ∈ l, z ≠ m → r z m = false := by
  classical
  set S := l.filter (fun z => z ≠ c && r z c) with hS
  have hmemS : ∀ z, z ∈ S ↔ z ∈ l ∧ z ≠ c ∧ r z c = true := by
    intro z
    rw [hS, List.mem_filter]
    constructor
    · rintro ⟨h1, h2⟩
      simp only [Bool.and_eq_true, decide_eq_true_eq] at h2
      exact ⟨h1, h2.1, h2.2⟩
    · rintro ⟨h1, h2, h3⟩
      exact ⟨h1, by simp [h2, h3]⟩
  have hSsub : ∀ z ∈ S, z ∈ l := fun z hz => ((hmemS z).mp hz).1
  have hSne : S ≠ [] := by
    intro hnil
    have : z0 ∈ S := (hmemS z0).mpr ⟨hz0, hz0c, hrz0⟩
    rw [hnil] at this
    exact List.not_mem_nil z0 this
  obtain ⟨m, hmS, hmmin⟩ := exists_minimal r S hSne
    (fun x hx y hy z hz => htrans x (hSsub x hx) y (hSsub y hy) z (hSsub z hz))
    (fun x hx y hy => hanti x (hSsub x hx) y (hSsub y hy))
  obtain ⟨hml, hmc, hrmc⟩ := (hmemS m).mp hmS
  refine ⟨m, hml, hmc, hrmc, ?_⟩
  intro z hz hzm
  by_cases hrzm : r z m = true
  · have hrzc : r z c = true := htrans z hz m hml c hc hrzm hrmc
    have hzc : z ≠ c := by
      rintro rfl
      exact absurd hrzm (by simp [hanti m hml z hz hmc hrmc])
    have hzS : z ∈ S := (hmemS z).mpr ⟨hz, hzc, hrzc⟩
    exact absurd hrzm (by simp [hmmin z hzS hzm])
  · exact Bool.eq_false_iff.mpr hrzm

/-- C3 — Class resolution.  A directly-callable input is returned unchanged.
For a module, under the facts Python guarantees about genuine class objects
(the initial candidates are pairwise-distinct objects, subclassing is
transitive, and two distinct classes are never subclasses of each other):
the surviving candidate list consists exactly of the maximal (most-derived)
initial candidates — every candidate that is a strict supertype of another
candidate is discarded; with no candidates the resolver returns `none`; with
at least one candidate it deterministically returns a single maximal
candidate. -/
theorem get_skill_class_resolution (entries : List (String × PyObj))
    (hnd : (initialCandidates entries).Nodup)
    (htrans : ∀ a ∈ initialCandidates entries, ∀ b ∈ initialCandidates entries,
      ∀ c ∈ initialCandidates entries,
      pyIssubclass a b = true → pyIssubclass b c = true → pyIssubclass a c = true)
    (hanti : ∀ a ∈ initialCandidates entries, ∀ b ∈ initialCandidates entries,
      a ≠ b → pyIssubclass a b = true → pyIssubclass b a = false) :
    (∀ f, get_skill_class (.callable f) = some (.callable f)) ∧
    (∀ c, c ∈ prune pyIssubclass (initialCandidates entries) (initialCandidates entries) ↔
      (c ∈ initialCandidates entries ∧
        ∀ z ∈ initialCandidates entries, z ≠ c → pyIssubclass z c = false)) ∧
    (initialCandidates entries = [] → get_skill_class (.module entries) = none) ∧
    (initialCandidates entries ≠ [] →
      ∃ c, get_skill_class (.module entries) = some (.cls c) ∧
        c ∈ initialCandidates entries ∧
        ∀ z ∈ initialCandidates entries, z ≠ c → pyIssubclass z c = false) := by
  set cands := initialCandidates entries with hcands
  have hchar : ∀ c, c ∈ prune pyIssubclass cands cands ↔
      (c ∈ cands ∧ ∀ z ∈ cands, z ≠ c → pyIssubclass z c = false) := by
    intro c
    constructor
    · intro hmem
      have hcc : c ∈ cands := (prune_sublist pyIssubclass cands cands).subset hmem
      refine ⟨hcc, ?_⟩
      intro z hz hzc
      by_cases hr : pyIssubclass z c = true
      · obtain ⟨m, hml, hmc, hrmc, hmmax⟩ :=
          exists_dominating_maximal pyIssubclass cands c z hcc hz hzc hr htrans hanti
        exact absurd hmem (prune_removed pyIssubclass cands cands c m hnd hcc hml hmc hrmc hmmax)
      · exact Bool.eq_false_iff.mpr hr
    · rintro ⟨hcc, hmax⟩
      exact prune_maximal_mem pyIssubclass cands cands c hcc hmax
  refine ⟨fun f => rfl, hchar, ?_, ?_⟩
  · intro hnil
    simp only [get_skill_class]
    rw [← hcands, hnil]
    simp [prune]
  · intro hne
    obtain ⟨m, hm, hmmax⟩ := exists_minimal pyIssubclass cands hne htrans hanti
    have hmem : m ∈ prune pyIssubclass cands cands := (hchar m).mpr ⟨hm, hmmax⟩
    rcases hply : prune pyIssubclass cands cands with _ | ⟨c0, rest⟩
    · rw [hply] at hmem
      exact absurd hmem (List.not_mem_nil m)
    · have hc0 : c0 ∈ prune pyIssubclass cands cands := by rw [hply]; simp
      obtain ⟨hc0c, hc0max⟩ := (hchar c0).mp hc0
      refine ⟨c0, ?_, hc0c, hc0max⟩
      simp only [get_skill_class]
      rw [← hcands, hply]

/-! ## SkillLoader state machine -/

/-- A live skill object.  `iid` is its object identity, `skill_id`/`root_dir`
its attributes read by the loader's properties, `reload_skill` the
reload-permission flag.  `pub_fully_init` models the (deprecated) attribute
`is_fully_initialized`, `priv_fully_init` the attribute
`_is_fully_initialized`: `none` means the attribute is absent, so reading it
raises `AttributeError`.  `startup_ok` is whether `_startup` succeeds,
`shutdown_raises` whether `default_shutdown` raises (the loader absorbs it
either way). -/
structure Instance where
  iid : Nat
  name : String
  skill_id : String
  root_dir : String
  reload_skill : Bool
  pub_fully_init : Option Bool
  priv_fully_init : Option Bool
  startup_ok : Bool
  shutdown_raises : Bool
deriving DecidableEq, Repr

/-- The outcome of calling a class/factory with a given calling convention. -/
inductive CallResult where
  | ok (i : Instance)
  | exn
deriving DecidableEq, Repr

/-- A callable that constructs a skill (class or `create_skill` factory):
what happens under the modern call `skill_creator(bus=…, skill_id=…)` and
under the legacy no-argument call `skill_creator()`. -/
structure Creator where
  modern : CallResult
  legacy : CallResult
deriving DecidableEq, Repr

/-- A loaded skill module as the loader sees it: an optional callable
`create_skill` factory (only when the attribute exists and is callable) and
the result of `get_skill_class` on the module, as a callable. -/
structure SkillModule where
  create_skill : Option Creator
  skill_class : Option Creator
deriving DecidableEq, Repr

/-- The configuration slice the loader reads (re-read on every check). -/
structure Config where
  blacklisted_skills : List String
  debug : Bool
deriving DecidableEq, Repr

/-- A bus message. -/
structure Event where
  msg_type : String
  payload : List (String × Option String)
deriving DecidableEq, Repr

/-- One observable side effect of a loader operation, in chronological
order. -/
inductive Action where
  | emit (e : Event)
  | execMod (path : String)
  | createInst (iid : Nat)
  | startupInst (iid : Nat)
  | shutdownInst (iid : Nat)
  | watcherStart (wid : Nat)
  | watcherStop (wid : Nat)
deriving DecidableEq, Repr

instance exceptDecEq {ε α : Type} [DecidableEq ε] [DecidableEq α] :
    DecidableEq (Except ε α) := fun a b =>
  match a, b with
  | .error e1, .error e2 =>
      if h : e1 = e2 then .isTrue (h ▸ rfl)
      else .isFalse (fun hc => h (by cases hc; rfl))
  | .ok x, .ok y =>
      if h : x = y then .isTrue (h ▸ rfl)
      else .isFalse (fun hc => h (by cases hc; rfl))
  | .error _, .ok _ => .isFalse (fun hc => by cases hc)
  | .ok _, .error _ => .isFalse (fun hc => by cases hc)

/-- What sits on disk at a skill main-file path: source that raises on
execution, or source that produces a module. -/
inductive DiskFile where
  | raises
  | mod (m : SkillModule)
deriving DecidableEq, Repr

/-- The filesystem, keyed by absolute path. -/
abbrev World := List (String × DiskFile)

/-- The mutable fields of a `SkillLoader`.  `watchdog` holds the id of the
live `FileWatcher` (ids are drawn from `watcherCounter`, so a recreated
watcher is observably fresh). -/
structure LoaderState where
  skill_directory_f : Option String
  skill_id_f : Option String
  skill_class_f : Option Creator
  loaded_f : Option Bool
  load_attempted : Bool
  last_loaded : Nat
  inst : Option Instance
  active : Bool
  watchdog : Option Nat
  watcherCounter : Nat
  config : Config
  skill_module : Option SkillModule
deriving DecidableEq, Repr

/-- `SkillLoader.__init__`. -/
def initLoader (dir sid : Option String) (cfg : Config) : LoaderState :=
  { skill_directory_f := dir, skill_id_f := sid, skill_class_f := none,
    loaded_f := none, load_attempted := false, last_loaded := 0,
    inst := none, active := true, watchdog := none, watcherCounter := 0,
    config := cfg, skill_module := none }

/-- `os.path.basename`. -/
def basename (p : String) : String :=
  ((p.splitOn "/").getLast?).getD ""

/-- The `skill_directory` property: the explicit directory, else the live
instance's `root_dir`. -/
def skill_directory (s : LoaderState) : Option String :=
  match s.skill_directory_f with
  | some d => some d
  | none => s.inst.map (fun i => i.root_dir)

/-- The `skill_id` property: the explicit id, else the live instance's id,
else the basename of the skill directory. -/
def skill_id (s : LoaderState) : Option String :=
  let sid :=
    match s.skill_id_f with
    | some x => some x
    | none => s.inst.map (fun i => i.skill_id)
  match sid with
  | some x => some x
  | none => (skill_directory s).map basename

/-- The `skill_class` property, as the callable the loader would invoke: the
explicitly set class, else the class resolved from the loaded module.  (The
source also falls back to `self.inst.__class__`, but in every modelled
call path `instance` is `None` at the point this property is read:
`_create_skill_instance` runs after `_prepare_for_load`/`_unload` cleared
it.) -/
def skill_class (s : LoaderState) : Option Creator :=
  match s.skill_class_f with
  | some c => some c
  | none =>
      match s.skill_module with
      | some m => m.skill_class
      | none => none

/-- The `is_blacklisted` property: re-reads the configuration's
`blacklisted_skills` on every evaluation. -/
def is_blacklisted (s : LoaderState) : Bool :=
  match skill_id s with
  | none => false
  | some sid => s.config.blacklisted_skills.contains sid

/-- The `reload_allowed` property. -/
def reload_allowed (s : LoaderState) : Bool :=
  s.active && (s.inst.isNone || (s.inst.map (fun i => i.reload_skill)).getD false)

/-- `_execute_instance_shutdown`: call the instance's `default_shutdown`
inside a `try/except` that logs and absorbs any exception (including the
`AttributeError` when no instance is live), then release the owning
reference. -/
def _execute_instance_shutdown (s : LoaderState) : LoaderState × List Action :=
  match s.inst with
  | some i => ({ s with inst := none }, [Action.shutdownInst i.iid])
  | none => ({ s with inst := none }, [])

/-- `_emit_skill_shutdown_event`. -/
def _emit_skill_shutdown_event (s : LoaderState) : List Action :=
  [Action.emit ⟨"mycroft.skills.shutdown",
    [("path", skill_directory s), ("id", skill_id s)]⟩]

/-- `_unload`: stop and drop the watcher, shut the instance down, (optionally
garbage-collect, a no-op here) and emit the shutdown event. -/
def _unload (s : LoaderState) : LoaderState × List Action :=
  let wd :=
    match s.watchdog with
    | some w => ({ s with watchdog := none }, [Action.watcherStop w])
    | none => (s, ([] : List Action))
  let ex := _execute_instance_shutdown wd.1
  (ex.1, wd.2 ++ ex.2 ++ _emit_skill_shutdown_event ex.1)

/-- Public `unload`: shut the instance down if one is live; nothing else. -/
def unload (s : LoaderState) : LoaderState × List Action :=
  if s.inst.isSome then _execute_instance_shutdown s else (s, [])

/-- `get_create_skill_function`: the module's `create_skill` when present and
callable. -/
def get_create_skill_function (m? : Option SkillModule) : Option Creator :=
  match m? with
  | some m => m.create_skill
  | none => none

/-- The `skill_creator` resolution in `_create_skill_instance`:
`get_create_skill_function(skill_module) or self.skill_class`. -/
def skill_creator_of (s : LoaderState) : Option Creator :=
  match get_create_skill_function s.skill_module with
  | some f => some f
  | none => skill_class s

/-- The inner `try/except` of `_create_skill_instance`: attempt the modern
call (bus and skill_id as arguments); on any exception fall back to the
legacy no-argument call.  Calling `None` raises under both conventions. -/
def construct : Option Creator → Option Instance × List Action
  | none => (none, [])
  | some cr =>
      match cr.modern with
      | .ok i => (some i, [Action.createInst i.iid])
      | .exn =>
          match cr.legacy with
          | .ok i => (some i, [Action.createInst i.iid])
          | .exn => (none, [])

/-- The initialization check of `_create_skill_instance`:
`is_fully_initialized` when the attribute exists (deprecated path), else
`_is_fully_initialized`; `none` when neither attribute exists
(`AttributeError`). -/
def reported_init (i : Instance) : Option Bool :=
  match i.pub_fully_init with
  | some b => some b
  | none => i.priv_fully_init

/-- `_create_skill_instance`: resolve the creator, construct, check the
fully-initialized flag, drive `_startup` when needed; any exception in the
whole block is caught, leaving `instance = None` and returning
`instance is not None`. -/
def _create_skill_instance (s : LoaderState) : Bool × LoaderState × List Action :=
  match construct (skill_creator_of s) with
  | (none, t) => (false, { s with inst := none }, t)
  | (some i, t) =>
      match reported_init i with
      | none => (false, { s with inst := none }, t)
      | some true => (true, { s with inst := some i }, t)
      | some false =>
          if i.startup_ok
          then (true, { s with inst := some i }, t ++ [Action.startupInst i.iid])
          else (false, { s with inst := none }, t ++ [Action.startupInst i.iid])

/-- `SKILL_MAIN_MODULE`. -/
def SKILL_MAIN_MODULE : String := "__init__.py"

/-- `_load_skill_source`: join the main-file path (raises `TypeError` when the
directory is unknown — uncaught), return `None` when the file is missing or
its execution raises (both logged and absorbed), else the loaded module. -/
def _load_skill_source (w : World) (s : LoaderState) :
    Except Unit (Option SkillModule × List Action) :=
  match skill_directory s with
  | none => .error ()
  | some dir =>
      let main_file_path := dir ++ "/" ++ SKILL_MAIN_MODULE
      match w.lookup main_file_path with
      | none => .ok (none, [])
      | some .raises => .ok (none, [Action.execMod main_file_path])
      | some (.mod m) => .ok (some m, [Action.execMod main_file_path])

/-- `_communicate_load_status`: on a truthy `loaded` emit
`mycroft.skills.loaded` (reading `self.inst.name` — an uncaught
`AttributeError` when no instance is live), else emit
`mycroft.skills.loading_failure`. -/
def _communicate_load_status (s : LoaderState) : Except Unit (List Action) :=
  if s.loaded_f = some true then
    match s.inst with
    | none => .error ()
    | some i =>
        .ok [Action.emit ⟨"mycroft.skills.loaded",
          [("path", skill_directory s), ("id", skill_id s), ("name", some i.name)]⟩]
  else
    .ok [Action.emit ⟨"mycroft.skills.loading_failure",
      [("path", skill_directory s), ("id", skill_id s)]⟩]

/-- `_start_filewatcher`: create a fresh watcher only when none is held. -/
def _start_filewatcher (s : LoaderState) : LoaderState × List Action :=
  match s.watchdog with
  | some _ => (s, [])
  | none =>
      ({ s with
          watchdog := some s.watcherCounter,
          watcherCounter := s.watcherCounter + 1 },
       [Action.watcherStart s.watcherCounter])

/-- `_prepare_for_load`: mark the attempt and clear the owning instance
reference (no shutdown is performed here). -/
def _prepare_for_load (s : LoaderState) : LoaderState :=
  { s with load_attempted := true, inst := none }

/-- The assignment `self.skill_module = …` in `_load`. -/
def setSkillModule (s : LoaderState) (m? : Option SkillModule) : LoaderState :=
  { s with skill_module := m? }

/-- The assignments `self.loaded = …` and `self.last_loaded = time()` in
`_load`. -/
def setLoadResult (s : LoaderState) (b : Bool) (now : Nat) : LoaderState :=
  { s with loaded_f := some b, last_loaded := now }

/-- The assignment `self.last_loaded = time()` alone (blacklisted path, where
`loaded` is left untouched). -/
def setLastLoaded (s : LoaderState) (now : Nat) : LoaderState :=
  { s with last_loaded := now }

/-- `_load`: mark attempted and clear the instance reference, check the
blacklist (a blacklisted skill skips module load and instantiation — and
leaves `loaded` untouched), else load the source and create the instance;
stamp the time, report the status on the bus, arm the filewatcher, and return
`self.loaded`. -/
def _load (w : World) (now : Nat) (s : LoaderState) :
    Except Unit (Option Bool × LoaderState × List Action) :=
  let s1 := _prepare_for_load s
  if is_blacklisted s1 then
    let s2 := setLastLoaded s1 now
    match _communicate_load_status s2 with
    | .error e => .error e
    | .ok t2 =>
        let fw := _start_filewatcher s2
        .ok (fw.1.loaded_f, fw.1, t2 ++ fw.2)
  else
    match _load_skill_source w s1 with
    | .error e => .error e
    | .ok (m?, t1) =>
        let s2 := setSkillModule s1 m?
        let c := _create_skill_instance s2
        let s4 := setLoadResult c.2.1 c.1 now
        match _communicate_load_status s4 with
        | .error e => .error e
        | .ok t3 =>
            let fw := _start_filewatcher s4
            .ok (fw.1.loaded_f, fw.1, t1 ++ c.2.2 ++ t3 ++ fw.2)

/-- Public `load`. -/
def load (w : World) (now : Nat) (s : LoaderState) :
    Except Unit (Option Bool × LoaderState × List Action) :=
  _load w now s

/-- `reload`: refuse (returning `False`, with no side effect) when the live
instance forbids reloading; otherwise `_unload` then `_load`. -/
def reload (w : World) (now : Nat) (s : LoaderState) :
    Except Unit (Option Bool × LoaderState × List Action) :=
  match s.inst with
  | some i =>
      if !i.reload_skill then .ok (some false, s, [])
      else
        let ul := _unload s
        match _load w now ul.1 with
        | .error e => .error e
        | .ok (r, s2, t2) => .ok (r, s2, ul.2 ++ t2)
  | none => _load w now s

/-- `activate`. -/
def activate (w : World) (now : Nat) (s : LoaderState) :
    Except Unit (Option Bool × LoaderState × List Action) :=
  load w now { s with active := true }

/-- `deactivate`. -/
def deactivate (s : LoaderState) : LoaderState × List Action :=
  unload { s with active := false }

/-- The bus messages among a trace's actions, in order. -/
def emittedEvents (tr : List Action) : List Event :=
  tr.filterMap fun a =>
    match a with
    | .emit e => some e
    | _ => none

/-- Truthiness of the Python value `self.loaded : None | False | True`. -/
def truthy : Option Bool → Bool
  | some true => true
  | _ => false

def isCreateAct : Action → Bool
  | .createInst _ => true
  | _ => false

def isShutdownAct : Action → Bool
  | .shutdownInst _ => true
  | _ => false

lemma emittedEvents_append (t1 t2 : List Action) :
    emittedEvents (t1 ++ t2) = emittedEvents t1 ++ emittedEvents t2 := by
  unfold emittedEvents
  exact List.filterMap_append t1 t2 _

@[simp] lemma emittedEvents_startup_nil (iid : Nat) :
    emittedEvents [Action.startupInst iid] = [] := rfl

lemma start_filewatcher_loaded_f (s : LoaderState) :
    (_start_filewatcher s).1.loaded_f = s.loaded_f := by
  unfold _start_filewatcher
  cases s.watchdog <;> rfl

lemma start_filewatcher_inst (s : LoaderState) :
    (_start_filewatcher s).1.inst = s.inst := by
  unfold _start_filewatcher
  cases s.watchdog <;> rfl

lemma start_filewatcher_watchdog_isSome (s : LoaderState) :
    ((_start_filewatcher s).1.watchdog).isSome = true := by
  unfold _start_filewatcher
  cases h : s.watchdog <;> simp [h]

lemma start_filewatcher_no_emit (s : LoaderState) :
    emittedEvents (_start_filewatcher s).2 = [] := by
  unfold _start_filewatcher
  cases s.watchdog <;> rfl

lemma start_filewatcher_no_shutdown (s : LoaderState) (iid : Nat) :
    Action.shutdownInst iid ∉ (_start_filewatcher s).2 := by
  unfold _start_filewatcher
  cases s.watchdog <;> simp

lemma construct_no_emit (cr? : Option Creator) :
    emittedEvents (construct cr?).2 = [] := by
  rcases cr? with _ | cr
  · rfl
  · rcases hm : cr.modern with i | _
    · simp [construct, hm, emittedEvents]
    · rcases hl : cr.legacy with i | _ <;> simp [construct, hm, hl, emittedEvents]

lemma construct_no_shutdown (cr? : Option Creator) (iid : Nat) :
    Action.shutdownInst iid ∉ (construct cr?).2 := by
  rcases cr? with _ | cr
  · simp [construct]
  · rcases hm : cr.modern with i | _
    · simp [construct, hm]
    · rcases hl : cr.legacy with i | _ <;> simp [construct, hm, hl]

lemma create_no_emit (s : LoaderState) :
    emittedEvents (_create_skill_instance s).2.2 = [] := by
  unfold _create_skill_instance
  rcases hc : construct (skill_creator_of s) with ⟨i?, t⟩
  have ht : emittedEvents t = [] := by
    have := construct_no_emit (skill_creator_of s)
    rw [hc] at this
    exact this
  rcases i? with _ | i
  · exact ht
  · rcases hri : reported_init i with _ | b
    · simpa [hri] using ht
    · rcases b with _ | _
      · by_cases hs : i.startup_ok = true <;>
          simp [hri, hs, emittedEvents_append, ht]
      · simpa [hri] using ht

lemma create_no_shutdown (s : LoaderState) (iid : Nat) :
    Action.shutdownInst iid ∉ (_create_skill_instance s).2.2 := by
  unfold _create_skill_instance
  rcases hc : construct (skill_creator_of s) with ⟨i?, t⟩
  have ht : Action.shutdownInst iid ∉ t := by
    have := construct_no_shutdown (skill_creator_of s) iid
    rw [hc] at this
    exact this
  rcases i? with _ | i
  · exact ht
  · rcases hri : reported_init i with _ | b
    · simpa [hri] using ht
    · rcases b with _ | _
      · by_cases hs : i.startup_ok = true <;> simp [hri, hs, ht]
      · simpa [hri] using ht

lemma create_loaded_iff (s : LoaderState) :
    (_create_skill_instance s).1 = ((_create_skill_instance s).2.1.inst).isSome := by
  unfold _create_skill_instance
  rcases hc : construct (skill_creator_of s) with ⟨i?, t⟩
  rcases i? with _ | i
  · rfl
  · rcases hri : reported_init i with _ | b
    · simp [hri]
    · rcases b with _ | _
      · by_cases hs : i.startup_ok = true <;> simp [hri, hs]
      · simp [hri]

lemma create_watchdog (s : LoaderState) :
    (_create_skill_instance s).2.1.watchdog = s.watchdog := by
  unfold _create_skill_instance
  rcases hc : construct (skill_creator_of s) with ⟨i?, t⟩
  rcases i? with _ | i
  · rfl
  · rcases hri : reported_init i with _ | b
    · simp [hri]
    · rcases b with _ | _
      · by_cases hs : i.startup_ok = true <;> simp [hri, hs]
      · simp [hri]

lemma create_watcherCounter (s : LoaderState) :
    (_create_skill_instance s).2.1.watcherCounter = s.watcherCounter := by
  unfold _create_skill_instance
  rcases hc : construct (skill_creator_of s) with ⟨i?, t⟩
  rcases i? with _ | i
  · rfl
  · rcases hri : reported_init i with _ | b
    · simp [hri]
    · rcases b with _ | _
      · by_cases hs : i.startup_ok = true <;> simp [hri, hs]
      · simp [hri]

@[simp] lemma prepare_for_load_loaded_f (s : LoaderState) :
    (_prepare_for_load s).loaded_f = s.loaded_f := rfl

@[simp] lemma prepare_for_load_inst (s : LoaderState) :
    (_prepare_for_load s).inst = none := rfl

@[simp] lemma prepare_for_load_watchdog (s : LoaderState) :
    (_prepare_for_load s).watchdog = s.watchdog := rfl

@[simp] lemma prepare_for_load_watcherCounter (s : LoaderState) :
    (_prepare_for_load s).watcherCounter = s.watcherCounter := rfl

@[simp] lemma setLastLoaded_loaded_f (s : LoaderState) (now : Nat) :
    (setLastLoaded s now).loaded_f = s.loaded_f := rfl

@[simp] lemma setLastLoaded_inst (s : LoaderState) (now : Nat) :
    (setLastLoaded s now).inst = s.inst := rfl

@[simp] lemma setLastLoaded_watchdog (s : LoaderState) (now : Nat) :
    (setLastLoaded s now).watchdog = s.watchdog := rfl

@[simp] lemma setLastLoaded_watcherCounter (s : LoaderState) (now : Nat) :
    (setLastLoaded s now).watcherCounter = s.watcherCounter := rfl

@[simp] lemma setSkillModule_loaded_f (s : LoaderState) (m? : Option SkillModule) :
    (setSkillModule s m?).loaded_f = s.loaded_f := rfl

@[simp] lemma setSkillModule_inst (s : LoaderState) (m? : Option SkillModule) :
    (setSkillModule s m?).inst = s.inst := rfl

@[simp] lemma setSkillModule_watchdog (s : LoaderState) (m? : Option SkillModule) :
    (setSkillModule s m?).watchdog = s.watchdog := rfl

@[simp] lemma setSkillModule_watcherCounter (s : LoaderState) (m? : Option SkillModule) :
    (setSkillModule s m?).watcherCounter = s.watcherCounter := rfl

@[simp] lemma setLoadResult_loaded_f (s : LoaderState) (b : Bool) (now : Nat) :
    (setLoadResult s b now).loaded_f = some b := rfl

@[simp] lemma setLoadResult_inst (s : LoaderState) (b : Bool) (now : Nat) :
    (setLoadResult s b now).inst = s.inst := rfl

@[simp] lemma setLoadResult_watchdog (s : LoaderState) (b : Bool) (now : Nat) :
    (setLoadResult s b now).watchdog = s.watchdog := rfl

@[simp] lemma setLoadResult_watcherCounter (s : LoaderState) (b : Bool) (now : Nat) :
    (setLoadResult s b now).watcherCounter = s.watcherCounter := rfl

/-- C1 — Load status, live instance, and bus reporting.  Whenever `load()`
returns (without raising): if the result is truthy (`True`), exactly one live
instance is held and the call emitted exactly one bus message, the
`mycroft.skills.loaded` event with payload keys `path`, `id`, `name`; if the
result is falsy (`False` or `None`), no live instance is held and the call
emitted exactly one bus message, the `mycroft.skills.loading_failure` event
with payload keys `path`, `id`.  (The specification's `skill.loaded` /
`skill.loading_failure` are these two messages.) -/
theorem load_status_and_events (w : World) (now : Nat) (s : LoaderState)
    (r : Option Bool) (s' : LoaderState) (tr : List Action)
    (h : load w now s = .ok (r, s', tr)) :
    (r = some true →
      s'.inst.isSome = true ∧
      ∃ e, emittedEvents tr = [e] ∧ e.msg_type = "mycroft.skills.loaded" ∧
        e.payload.map Prod.fst = ["path", "id", "name"]) ∧
    (truthy r = false →
      s'.inst = none ∧
      ∃ e, emittedEvents tr = [e] ∧ e.msg_type = "mycroft.skills.loading_failure" ∧
        e.payload.map Prod.fst = ["path", "id"]) := by
  rw [load, _load] at h
  simp only at h
  by_cases hb : is_blacklisted (_prepare_for_load s) = true
  · rw [if_pos hb] at h
    by_cases hl : (setLastLoaded (_prepare_for_load s) now).loaded_f = some true
    · have hcomm : _communicate_load_status (setLastLoaded (_prepare_for_load s) now)
          = .error () := by
        rw [_communicate_load_status, if_pos hl]
        have hinst : (setLastLoaded (_prepare_for_load s) now).inst = none := by simp
        rw [hinst]
      rw [hcomm] at h
      exact absurd h (by simp)
    · have hcomm : _communicate_load_status (setLastLoaded (_prepare_for_load s) now) =
          .ok [Action.emit ⟨"mycroft.skills.loading_failure",
            [("path", skill_directory (setLastLoaded (_prepare_for_load s) now)),
             ("id", skill_id (setLastLoaded (_prepare_for_load s) now))]⟩] := by
        rw [_communicate_load_status, if_neg hl]
      rw [hcomm] at h
      simp only [Except.ok.injEq, Prod.mk.injEq] at h
      obtain ⟨hr, hs', htr⟩ := h
      refine ⟨?_, ?_⟩
      · intro hrt
        rw [hrt] at hr
        rw [start_filewatcher_loaded_f] at hr
        exact absurd hr hl
      · intro _
        subst hs'
        subst htr
        refine ⟨?_, ⟨"mycroft.skills.loading_failure",
          [("path", skill_directory (setLastLoaded (_prepare_for_load s) now)),
           ("id", skill_id (setLastLoaded (_prepare_for_load s) now))]⟩, ?_, rfl, rfl⟩
        · rw [start_filewatcher_inst]
          simp
        · rw [emittedEvents_append, start_filewatcher_no_emit]
          rfl
  · rw [if_neg hb] at h
    rcases hsrc : _load_skill_source w (_prepare_for_load s) with e0 | ⟨m?, t1⟩
    · rw [hsrc] at h
      exact absurd h (by simp)
    · rw [hsrc] at h
      simp only at h
      have ht1 : emittedEvents t1 = [] := by
        rw [_load_skill_source] at hsrc
        rcases hd : skill_directory (_prepare_for_load s) with _ | dir
        · simp only [hd] at hsrc
          exact absurd hsrc (by simp)
        · simp only [hd] at hsrc
          rcases hw : w.lookup (dir ++ "/" ++ SKILL_MAIN_MODULE) with _ | f
          · simp only [hw, Except.ok.injEq, Prod.mk.injEq] at hsrc
            rw [← hsrc.2]
            rfl
          · rcases f with _ | mm <;>
            · simp only [hw, Except.ok.injEq, Prod.mk.injEq] at hsrc
              rw [← hsrc.2]
              rfl
      set s2 := setSkillModule (_prepare_for_load s) m? with hs2
      set c := _create_skill_instance s2 with hc
      set s4 := setLoadResult c.2.1 c.1 now with hs4
      have hce : emittedEvents c.2.2 = [] := by rw [hc]; exact create_no_emit s2
      by_cases hcb : c.1 = true
      · -- successful instantiation: a live instance exists
        have hinst : ∃ i, s4.inst = some i := by
          have hiff := create_loaded_iff s2
          rw [← hc, hcb] at hiff
          rcases hi : c.2.1.inst with _ | i
          · rw [hi] at hiff
            exact absurd hiff.symm (by simp)
          · exact ⟨i, by rw [hs4]; simpa using hi⟩
        obtain ⟨i, hi⟩ := hinst
        have hl4 : s4.loaded_f = some true := by rw [hs4]; simpa using hcb
        have hcomm : _communicate_load_status s4 =
            .ok [Action.emit ⟨"mycroft.skills.loaded",
              [("path", skill_directory s4), ("id", skill_id s4),
                ("name", some i.name)]⟩] := by
          rw [_communicate_load_status, if_pos hl4, hi]
        rw [hcomm] at h
        simp only [Except.ok.injEq, Prod.mk.injEq] at h
        obtain ⟨hr, hs', htr⟩ := h
        refine ⟨?_, ?_⟩
        · intro _
          subst hs'
          subst htr
          refine ⟨by rw [start_filewatcher_inst, hi]; rfl, ?_⟩
          refine ⟨⟨"mycroft.skills.loaded",
            [("path", skill_directory s4), ("id", skill_id s4),
              ("name", some i.name)]⟩, ?_, rfl, rfl⟩
          rw [emittedEvents_append, emittedEvents_append, emittedEvents_append]
          rw [ht1, start_filewatcher_no_emit, hce]
          rfl
        · intro hrf
          rw [← hr, start_filewatcher_loaded_f, hl4] at hrf
          simp [truthy] at hrf
      · -- failed instantiation: no live instance
        have hcf : c.1 = false := by
          rcases hx : c.1 with _ | _
          · rfl
          · exact absurd hx hcb
        have hinst : s4.inst = none := by
          have hiff := create_loaded_iff s2
          rw [← hc, hcf] at hiff
          rcases hi : c.2.1.inst with _ | i
          · rw [hs4]
            simpa using hi
          · rw [hi] at hiff
            exact absurd hiff.symm (by simp)
        have hl4 : ¬ s4.loaded_f = some true := by
          rw [hs4]
          simp [hcf]
        have hcomm : _communicate_load_status s4 =
            .ok [Action.emit ⟨"mycroft.skills.loading_failure",
              [("path", skill_directory s4), ("id", skill_id s4)]⟩] := by
          rw [_communicate_load_status, if_neg hl4]
        rw [hcomm] at h
        simp only [Except.ok.injEq, Prod.mk.injEq] at h
        obtain ⟨hr, hs', htr⟩ := h
        refine ⟨?_, ?_⟩
        · intro hrt
          rw [hrt] at hr
          rw [start_filewatcher_loaded_f] at hr
          exact absurd hr hl4
        · intro _
          subst hs'
          subst htr
          refine ⟨by rw [start_filewatcher_inst, hinst], ?_⟩
          refine ⟨⟨"mycroft.skills.loading_failure",
            [("path", skill_directory s4), ("id", skill_id s4)]⟩, ?_, rfl, rfl⟩
          rw [emittedEvents_append, emittedEvents_append, emittedEvents_append]
          rw [ht1, start_filewatcher_no_emit, hce]
          rfl

/-! ## Further structural lemmas about the loader operations -/

lemma construct_cases (cr? : Option Creator) :
    construct cr? = (none, []) ∨
    ∃ i, construct cr? = (some i, [Action.createInst i.iid]) := by
  rcases cr? with _ | cr
  · exact Or.inl rfl
  · rcases hm : cr.modern with i | _
    · exact Or.inr ⟨i, by simp [construct, hm]⟩
    · rcases hl : cr.legacy with i | _
      · exact Or.inr ⟨i, by simp [construct, hm, hl]⟩
      · exact Or.inl (by simp [construct, hm, hl])

lemma construct_some_trace (cr? : Option Creator) (i : Instance) (t : List Action)
    (h : construct cr? = (some i, t)) : t = [Action.createInst i.iid] := by
  rcases construct_cases cr? with hco | ⟨j, hco⟩
  · rw [hco] at h
    exact absurd h (by simp)
  · rw [hco] at h
    simp only [Prod.mk.injEq, Option.some.injEq] at h
    rw [← h.2, h.1]

lemma construct_shutdown_filter (cr? : Option Creator) :
    (construct cr?).2.filter isShutdownAct = [] := by
  rcases construct_cases cr? with h | ⟨i, h⟩ <;> rw [h] <;> rfl

lemma create_shutdown_filter (s : LoaderState) :
    (_create_skill_instance s).2.2.filter isShutdownAct = [] := by
  unfold _create_skill_instance
  rcases hc : construct (skill_creator_of s) with ⟨i?, t⟩
  have ht : t.filter isShutdownAct = [] := by
    have := construct_shutdown_filter (skill_creator_of s)
    rw [hc] at this
    exact this
  rcases i? with _ | i
  · exact ht
  · rcases hri : reported_init i with _ | b
    · simpa [hri] using ht
    · rcases b with _ | _
      · by_cases hs : i.startup_ok = true <;>
          simp [hri, hs, List.filter_append, ht, isShutdownAct]
      · simpa [hri] using ht

lemma communicate_shutdown_filter (s : LoaderState) (t : List Action)
    (h : _communicate_load_status s = .ok t) : t.filter isShutdownAct = [] := by
  rw [_communicate_load_status] at h
  by_cases hl : s.loaded_f = some true
  · rw [if_pos hl] at h
    rcases hi : s.inst with _ | i
    · rw [hi] at h
      exact absurd h (by simp)
    · rw [hi] at h
      simp only [Except.ok.injEq] at h
      rw [← h]
      rfl
  · rw [if_neg hl] at h
    simp only [Except.ok.injEq] at h
    rw [← h]
    rfl

lemma filewatcher_shutdown_filter (s : LoaderState) :
    (_start_filewatcher s).2.filter isShutdownAct = [] := by
  unfold _start_filewatcher
  cases s.watchdog <;> rfl

lemma source_shutdown_filter (w : World) (s : LoaderState) (m? : Option SkillModule)
    (t : List Action) (h : _load_skill_source w s = .ok (m?, t)) :
    t.filter isShutdownAct = [] := by
  rw [_load_skill_source] at h
  rcases hd : skill_directory s with _ | dir
  · simp only [hd] at h
    exact absurd h (by simp)
  · simp only [hd] at h
    rcases hw : w.lookup (dir ++ "/" ++ SKILL_MAIN_MODULE) with _ | f
    · simp only [hw, Except.ok.injEq, Prod.mk.injEq] at h
      rw [← h.2]
      rfl
    · rcases f with _ | mm <;>
      · simp only [hw, Except.ok.injEq, Prod.mk.injEq] at h
        rw [← h.2]
        rfl

lemma load_no_shutdown (w : World) (now : Nat) (s : LoaderState)
    (r : Option Bool) (s' : LoaderState) (tr : List Action)
    (h : load w now s = .ok (r, s', tr)) :
    tr.filter isShutdownAct = [] := by
  rw [load, _load] at h
  simp only at h
  by_cases hb : is_blacklisted (_prepare_for_load s) = true
  · rw [if_pos hb] at h
    rcases hcm : _communicate_load_status (setLastLoaded (_prepare_for_load s) now)
        with e0 | t2
    · rw [hcm] at h
      exact absurd h (by simp)
    · rw [hcm] at h
      simp only [Except.ok.injEq, Prod.mk.injEq] at h
      obtain ⟨_, _, htr⟩ := h
      rw [← htr, List.filter_append, communicate_shutdown_filter _ _ hcm,
        filewatcher_shutdown_filter]
      rfl
  · rw [if_neg hb] at h
    rcases hsrc : _load_skill_source w (_prepare_for_load s) with e0 | ⟨m?, t1⟩
    · rw [hsrc] at h
      exact absurd h (by simp)
    · rw [hsrc] at h
      simp only at h
      rcases hcm : _communicate_load_status
          (setLoadResult (_create_skill_instance (setSkillModule (_prepare_for_load s) m?)).2.1
            (_create_skill_instance (setSkillModule (_prepare_for_load s) m?)).1 now)
          with e0 | t3
      · rw [hcm] at h
        exact absurd h (by simp)
      · rw [hcm] at h
        simp only [Except.ok.injEq, Prod.mk.injEq] at h
        obtain ⟨_, _, htr⟩ := h
        rw [← htr, List.filter_append, List.filter_append, List.filter_append]
        rw [source_shutdown_filter w _ m? t1 hsrc, create_shutdown_filter,
          communicate_shutdown_filter _ _ hcm, filewatcher_shutdown_filter]
        rfl

lemma load_ok_shape (w : World) (now : Nat) (s : LoaderState) (r : Option Bool)
    (s' : LoaderState) (tr : List Action) (h : load w now s = .ok (r, s', tr)) :
    ∃ s4, s' = (_start_filewatcher s4).1 ∧
      s4.watchdog = s.watchdog ∧ s4.watcherCounter = s.watcherCounter := by
  rw [load, _load] at h
  simp only at h
  by_cases hb : is_blacklisted (_prepare_for_load s) = true
  · rw [if_pos hb] at h
    rcases hcm : _communicate_load_status (setLastLoaded (_prepare_for_load s) now)
        with e0 | t2
    · rw [hcm] at h
      exact absurd h (by simp)
    · rw [hcm] at h
      simp only [Except.ok.injEq, Prod.mk.injEq] at h
      exact ⟨setLastLoaded (_prepare_for_load s) now, h.2.1.symm, by simp, by simp⟩
  · rw [if_neg hb] at h
    rcases hsrc : _load_skill_source w (_prepare_for_load s) with e0 | ⟨m?, t1⟩
    · rw [hsrc] at h
      exact absurd h (by simp)
    · rw [hsrc] at h
      simp only at h
      rcases hcm : _communicate_load_status
          (setLoadResult (_create_skill_instance (setSkillModule (_prepare_for_load s) m?)).2.1
            (_create_skill_instance (setSkillModule (_prepare_for_load s) m?)).1 now)
          with e0 | t3
      · rw [hcm] at h
        exact absurd h (by simp)
      · rw [hcm] at h
        simp only [Except.ok.injEq, Prod.mk.injEq] at h
        refine ⟨_, h.2.1.symm, ?_, ?_⟩
        · rw [setLoadResult_watchdog, create_watchdog, setSkillModule_watchdog,
            prepare_for_load_watchdog]
        · rw [setLoadResult_watcherCounter, create_watcherCounter,
            setSkillModule_watcherCounter, prepare_for_load_watcherCounter]

lemma start_filewatcher_fresh (s : LoaderState) (h : s.watchdog = none) :
    (_start_filewatcher s).1.watchdog = some s.watcherCounter := by
  unfold _start_filewatcher
  rw [h]

lemma unload_watchdog_none (s : LoaderState) : (_unload s).1.watchdog = none := by
  unfold _unload _execute_instance_shutdown
  rcases hw : s.watchdog with _ | wid <;> rcases hi : s.inst with _ | i <;>
    simp [hw, hi]

lemma unload_watcherCounter (s : LoaderState) :
    (_unload s).1.watcherCounter = s.watcherCounter := by
  unfold _unload _execute_instance_shutdown
  rcases hw : s.watchdog with _ | wid <;> rcases hi : s.inst with _ | i <;>
    simp [hw, hi]

lemma public_unload_watchdog (s : LoaderState) : (unload s).1.watchdog = s.watchdog := by
  unfold unload _execute_instance_shutdown
  rcases hi : s.inst with _ | i <;> simp [hi]

def isExecAct : Action → Bool
  | .execMod _ => true
  | _ => false

/-! ## Concrete inputs for counterexamples and witnesses -/

def loadResultVal (x : Except Unit (Option Bool × LoaderState × List Action)) :
    Option Bool :=
  match x with
  | .ok (r, _, _) => r
  | .error _ => none

def loadResultState (x : Except Unit (Option Bool × LoaderState × List Action))
    (dflt : LoaderState) : LoaderState :=
  match x with
  | .ok (_, s, _) => s
  | .error _ => dflt

def loadResultTrace (x : Except Unit (Option Bool × LoaderState × List Action)) :
    List Action :=
  match x with
  | .ok (_, _, t) => t
  | .error _ => []

def loadResultOk (x : Except Unit (Option Bool × LoaderState × List Action)) : Bool :=
  match x with
  | .ok _ => true
  | .error _ => false

/-- A well-behaved skill object: modern constructor signature, reload allowed,
`_is_fully_initialized = True`. -/
def demoInst : Instance :=
  ⟨1, "TestSkill", "test", "/skills/test", true, none, some true, true, false⟩

def demoCreator : Creator := ⟨.ok demoInst, .exn⟩

def demoModule : SkillModule := ⟨none, some demoCreator⟩

def demoWorld : World := [("/skills/test/__init__.py", .mod demoModule)]

def demoCfg : Config := ⟨[], false⟩

def demoBlkCfg : Config := ⟨["test"], false⟩

def demoStart : LoaderState := initLoader (some "/skills/test") (some "test") demoCfg

/-- The loader state after a first successful `load()`. -/
def demoLoaded : LoaderState := loadResultState (load demoWorld 5 demoStart) demoStart

/-! ## C4, C10 — instantiation conventions -/

/-- C4 — Construction conventions and failure absorption.  The `create_skill`
factory, when defined, is preferred over the resolved class; construction
first attempts the modern call (bus/skill_id arguments) and falls back to the
legacy no-argument call on any exception; when both raise, construction
yields nothing; when a constructed instance reports itself not fully
initialized, `_startup` is driven explicitly; the returned flag is exactly
"a live instance is held", and on failure the instance is `None` (the
operation is total: every exception is caught rather than propagated). -/
theorem create_skill_instance_conventions (s : LoaderState) :
    (∀ sm f, s.skill_module = some sm → sm.create_skill = some f →
      skill_creator_of s = some f) ∧
    (∀ cr i, cr.modern = .ok i →
      construct (some cr) = (some i, [Action.createInst i.iid])) ∧
    (∀ cr i, cr.modern = .exn → cr.legacy = .ok i →
      construct (some cr) = (some i, [Action.createInst i.iid])) ∧
    (∀ cr, cr.modern = .exn → cr.legacy = .exn → construct (some cr) = (none, [])) ∧
    (∀ i t, construct (skill_creator_of s) = (some i, t) →
      reported_init i = some false →
      Action.startupInst i.iid ∈ (_create_skill_instance s).2.2) ∧
    ((_create_skill_instance s).1 = ((_create_skill_instance s).2.1.inst).isSome) ∧
    ((_create_skill_instance s).1 = false → (_create_skill_instance s).2.1.inst = none) := by
  refine ⟨?_, ?_, ?_, ?_, ?_, create_loaded_iff s, ?_⟩
  · intro sm f h1 h2
    simp [skill_creator_of, get_create_skill_function, h1, h2]
  · intro cr i hm
    simp [construct, hm]
  · intro cr i hm hl
    simp [construct, hm, hl]
  · intro cr hm hl
    simp [construct, hm, hl]
  · intro i t hcon hri
    unfold _create_skill_instance
    rw [hcon]
    simp only [hri]
    by_cases hs : i.startup_ok = true <;> simp [hs]
  · intro hf
    have hiff := create_loaded_iff s
    rw [hf] at hiff
    rcases hx : (_create_skill_instance s).2.1.inst with _ | i
    · rfl
    · rw [hx] at hiff
      exact absurd hiff.symm (by simp)

def demoFactoryInst : Instance :=
  ⟨2, "FactorySkill", "test", "/skills/test", true, none, some true, true, false⟩

def demoFactoryCreator : Creator := ⟨.ok demoFactoryInst, .exn⟩

def demoFactoryModule : SkillModule := ⟨some demoFactoryCreator, some demoCreator⟩

def demoFactoryState : LoaderState :=
  { demoStart with skill_module := some demoFactoryModule }

theorem create_skill_instance_conventions_witness :
    skill_creator_of demoFactoryState = some demoFactoryCreator ∧
    construct (some demoFactoryCreator) = (some demoFactoryInst, [Action.createInst 2]) ∧
    (_create_skill_instance demoFactoryState).1
      = ((_create_skill_instance demoFactoryState).2.1.inst).isSome :=
  ⟨(create_skill_instance_conventions demoFactoryState).1 demoFactoryModule
      demoFactoryCreator rfl rfl,
   (create_skill_instance_conventions demoFactoryState).2.1 demoFactoryCreator
      demoFactoryInst rfl,
   (create_skill_instance_conventions demoFactoryState).2.2.2.2.2.1⟩

/-- C10 — An object exposing neither `is_fully_initialized` nor
`_is_fully_initialized` can never complete a successful load: the
`AttributeError` raised by the initialization check is absorbed by the
generic handler, `_create_skill_instance` returns `False` with the instance
reference cleared — even though construction itself succeeded (the creation
of the object is on the trace). -/
theorem missing_init_attrs_fail_load (s : LoaderState) (i : Instance) (t : List Action)
    (h : construct (skill_creator_of s) = (some i, t))
    (h1 : i.pub_fully_init = none) (h2 : i.priv_fully_init = none) :
    _create_skill_instance s = (false, { s with inst := none }, t) ∧
    t = [Action.createInst i.iid] := by
  have hri : reported_init i = none := by
    rw [reported_init, h1]
    exact h2
  constructor
  · unfold _create_skill_instance
    rw [h]
    simp only [hri]
  · exact construct_some_trace _ i t h

def demoBadInst : Instance :=
  ⟨4, "Bad", "test", "/skills/test", true, none, none, true, false⟩

def demoBadModule : SkillModule := ⟨none, some ⟨.ok demoBadInst, .exn⟩⟩

def demoBadState : LoaderState :=
  { demoStart with skill_module := some demoBadModule }

theorem missing_init_attrs_fail_load_witness :
    _create_skill_instance demoBadState
      = (false, { demoBadState with inst := none }, [Action.createInst 4]) :=
  (missing_init_attrs_fail_load demoBadState demoBadInst
    [Action.createInst demoBadInst.iid] (by decide) rfl rfl).1

/-! ## C5 — unload -/

/-- C5 counterexample: after a successful load (live instance, armed watcher),
the public `unload()` neither tears down the watcher nor emits any
`skill.shutdown` bus event — contradicting the claim that `unload()` "tears
down the watcher … and emits a skill.shutdown event". -/
theorem unload_counterexample :
    demoLoaded.inst.isSome = true ∧
    demoLoaded.watchdog = some 0 ∧
    (unload demoLoaded).1.watchdog = some 0 ∧
    emittedEvents (unload demoLoaded).2 = [] := by decide

/-- C5 (amended) — The public `unload()` only shuts the instance down: the
teardown hook is invoked (its exceptions absorbed — the model is total and
independent of `shutdown_raises`), the owning reference is cleared so no live
instance remains, the call is idempotent when already unloaded, the watcher
is left untouched and no bus event is emitted.  Watcher teardown and the
`mycroft.skills.shutdown` emission (payload keys `path`, `id`) happen only in
the internal `_unload` path, and among the loader's operations only
`reload()` invokes `_unload`: `deactivate()` delegates to the public
`unload()`, so it too leaves the watcher in place and emits nothing (last two
conjuncts). -/
theorem unload_shutdown_only (s : LoaderState) :
    (∀ i, s.inst = some i →
      unload s = ({ s with inst := none }, [Action.shutdownInst i.iid])) ∧
    (s.inst = none → unload s = (s, [])) ∧
    ((unload s).1.inst = none) ∧
    ((unload s).1.watchdog = s.watchdog) ∧
    (emittedEvents (unload s).2 = []) ∧
    (∀ i, s.inst = some i →
      (_unload s).1.inst = none ∧ (_unload s).1.watchdog = none ∧
      (emittedEvents (_unload s).2).map Event.msg_type = ["mycroft.skills.shutdown"] ∧
      (emittedEvents (_unload s).2).map (fun e => e.payload.map Prod.fst)
        = [["path", "id"]]) ∧
    ((deactivate s).1.watchdog = s.watchdog) ∧
    (emittedEvents (deactivate s).2 = []) := by
  refine ⟨?_, ?_, ?_, public_unload_watchdog s, ?_, ?_,
    public_unload_watchdog { s with active := false }, ?_⟩
  · intro i hi
    simp [unload, _execute_instance_shutdown, hi]
  · intro hi
    simp [unload, hi]
  · rcases hi : s.inst with _ | i <;>
      simp [unload, _execute_instance_shutdown, hi]
  · rcases hi : s.inst with _ | i <;>
      simp [unload, _execute_instance_shutdown, hi, emittedEvents]
  · intro i hi
    rcases hw : s.watchdog with _ | wid <;>
      simp [_unload, _execute_instance_shutdown, _emit_skill_shutdown_event,
        hw, hi, emittedEvents_append, emittedEvents]
  · rcases hi : s.inst with _ | i <;>
      simp [deactivate, unload, _execute_instance_shutdown, hi, emittedEvents]

theorem unload_shutdown_only_witness :
    unload demoLoaded = ({ demoLoaded with inst := none }, [Action.shutdownInst 1]) ∧
    emittedEvents (unload demoLoaded).2 = [] :=
  ⟨(unload_shutdown_only demoLoaded).1 demoInst (by decide),
   (unload_shutdown_only demoLoaded).2.2.2.2.1⟩

/-! ## C6 — reload denied -/

/-- C6 — When the live instance forbids reloading, `reload()` returns `False`
and is a strict no-op: the loader state (instance, loaded flag, module
handle, watcher, timestamps) is returned unchanged and the action trace is
empty (no bus event, no shutdown, no module execution). -/
theorem reload_denied_noop (w : World) (now : Nat) (s : LoaderState) (i : Instance)
    (h1 : s.inst = some i) (h2 : i.reload_skill = false) :
    reload w now s = .ok (some false, s, []) := by
  simp [reload, h1, h2]

def demoNoReloadInst : Instance :=
  ⟨3, "NoReload", "test", "/skills/test", false, none, some true, true, false⟩

def demoNoReloadState : LoaderState := { demoStart with inst := some demoNoReloadInst }

theorem reload_denied_noop_witness :
    reload demoWorld 11 demoNoReloadState = .ok (some false, demoNoReloadState, []) :=
  reload_denied_noop demoWorld 11 demoNoReloadState demoNoReloadInst rfl rfl

/-! ## C7 — blacklist -/

/-- C7 — The blacklist is re-read on each `load()`: with the same loader and
world, a fresh blacklisted loader skips (no module execution, no
instantiation, falsy `None` result reported as a loading failure), while the
identical loader without the blacklist performs the normal module-load
attempt.  However, at the failing input — a loader whose previous `load()`
succeeded (`loaded` still `True`) and whose id was then blacklisted — the
blacklist branch leaves `loaded` truthy while the instance reference is
cleared, so `_communicate_load_status` dereferences `self.instance.name` on
`None` and `load()` raises `AttributeError` instead of returning the claimed
false result. -/
theorem blacklist_toggle_and_stale_loaded_crash :
    loadResultOk (load demoWorld 3 { demoStart with config := demoBlkCfg }) = true ∧
    loadResultVal (load demoWorld 3 { demoStart with config := demoBlkCfg }) = none ∧
    (loadResultTrace (load demoWorld 3 { demoStart with config := demoBlkCfg })).filter
      isExecAct = [] ∧
    (loadResultTrace (load demoWorld 3 { demoStart with config := demoBlkCfg })).filter
      isCreateAct = [] ∧
    (emittedEvents (loadResultTrace
      (load demoWorld 3 { demoStart with config := demoBlkCfg }))).map Event.msg_type
      = ["mycroft.skills.loading_failure"] ∧
    loadResultVal (load demoWorld 5 demoStart) = some true ∧
    (loadResultTrace (load demoWorld 5 demoStart)).filter isExecAct
      = [Action.execMod "/skills/test/__init__.py"] ∧
    load demoWorld 7 { demoLoaded with config := demoBlkCfg } = .error () := by decide

/-! ## C8 — instance lifecycle discipline -/

/-- C8 counterexample: with a live instance held (after a successful load),
calling `load()` again creates a new instance while performing no shutdown at
all — the previous instance's teardown hook is never invoked, contradicting
the claim that every instance-creating operation requires the previous
instance to have completed shutdown first. -/
theorem load_skips_shutdown_counterexample :
    demoLoaded.inst.isSome = true ∧
    loadResultVal (load demoWorld 9 demoLoaded) = some true ∧
    (loadResultTrace (load demoWorld 9 demoLoaded)).filter isCreateAct
      = [Action.createInst 1] ∧
    (loadResultTrace (load demoWorld 9 demoLoaded)).filter isShutdownAct = [] := by
  decide

/-- C8 (amended) — The loader holds at most one owning instance reference at
a time (`instance : Option`), and `reload()` does drive the previous
instance's shutdown to completion before any new instance is created (its
trace splits into a shutdown part containing the teardown of the old
instance and a creation-free prefix); but `load()` merely clears the owning
reference in `_prepare_for_load`: a `load()` call never invokes any teardown
hook, so an instance replaced via bare `load()` never completes shutdown. -/
theorem instance_creation_shutdown_discipline (w : World) (now : Nat)
    (s : LoaderState) (i : Instance)
    (h1 : s.inst = some i) (h2 : i.reload_skill = true) :
    (∀ r s' tr, reload w now s = .ok (r, s', tr) →
      ∃ t1 t2, tr = t1 ++ t2 ∧ Action.shutdownInst i.iid ∈ t1 ∧
        (∀ a ∈ t1, isCreateAct a = false)) ∧
    (∀ r s' tr, load w now s = .ok (r, s', tr) →
      tr.filter isShutdownAct = []) := by
  constructor
  · intro r s' tr h
    rw [reload] at h
    simp only [h1, h2, Bool.not_true, Bool.false_eq_true, if_false] at h
    rcases hld : _load w now ((_unload s).1) with e0 | ⟨r2, s2, t2⟩
    · rw [hld] at h
      exact absurd h (by simp)
    · rw [hld] at h
      simp only [Except.ok.injEq, Prod.mk.injEq] at h
      obtain ⟨hr, hs', htr⟩ := h
      refine ⟨(_unload s).2, t2, htr.symm, ?_, ?_⟩
      · rcases hw : s.watchdog with _ | wid <;>
          simp [_unload, _execute_instance_shutdown, _emit_skill_shutdown_event, hw, h1]
      · intro a ha
        rcases hw : s.watchdog with _ | wid
        · simp [_unload, _execute_instance_shutdown, _emit_skill_shutdown_event,
            hw, h1] at ha
          rcases ha with ha | ha <;> simp [ha, isCreateAct]
        · simp [_unload, _execute_instance_shutdown, _emit_skill_shutdown_event,
            hw, h1] at ha
          rcases ha with ha | ha | ha <;> simp [ha, isCreateAct]
  · intro r s' tr h
    exact load_no_shutdown w now s r s' tr h

theorem instance_creation_shutdown_discipline_witness :
    (loadResultTrace (load demoWorld 9 demoLoaded)).filter isShutdownAct = [] :=
  (instance_creation_shutdown_discipline demoWorld 9 demoLoaded demoInst
      (by decide) rfl).2
    (loadResultVal (load demoWorld 9 demoLoaded))
    (loadResultState (load demoWorld 9 demoLoaded) demoLoaded)
    (loadResultTrace (load demoWorld 9 demoLoaded)) (by decide)

/-! ## C9 — watcher lifecycle -/

/-- C9 counterexample: a `load()` that fails (missing skill file, result
`False`) still arms the Change Watcher — contradicting the claim that the
watcher is armed only when a load cycle succeeds. -/
theorem watcher_armed_on_failure_counterexample :
    loadResultVal (load [] 3 demoStart) = some false ∧
    (loadResultState (load [] 3 demoStart) demoStart).watchdog = some 0 := by decide

/-- C9 (amended) — Every returning `load()` leaves a watcher armed,
regardless of success or failure (created fresh only when none is held).
The watcher is torn down only by the internal `_unload`, which among the
loader's operations only `reload()` invokes; a subsequent `load()` then arms
an observably fresh one.  Both the public `unload()` and `deactivate()`
(which delegates to the public `unload()`) leave the watcher untouched. -/
theorem watcher_lifecycle (w : World) (now : Nat) (s : LoaderState) :
    (∀ r s' tr, load w now s = .ok (r, s', tr) → (s'.watchdog).isSome = true) ∧
    ((_unload s).1.watchdog = none) ∧
    ((unload s).1.watchdog = s.watchdog) ∧
    ((deactivate s).1.watchdog = s.watchdog) ∧
    (∀ wid r s' tr, s.watchdog = some wid → wid < s.watcherCounter →
      load w now ((_unload s).1) = .ok (r, s', tr) →
      s'.watchdog = some s.watcherCounter ∧ s.watcherCounter ≠ wid) := by
  refine ⟨?_, unload_watchdog_none s, public_unload_watchdog s,
    public_unload_watchdog { s with active := false }, ?_⟩
  · intro r s' tr h
    obtain ⟨s4, hs', _, _⟩ := load_ok_shape w now s r s' tr h
    rw [hs']
    exact start_filewatcher_watchdog_isSome s4
  · intro wid r s' tr hw hlt h
    obtain ⟨s4, hs', hwd, hcnt0⟩ := load_ok_shape w now ((_unload s).1) r s' tr h
    have h4 : s4.watchdog = none := by rw [hwd, unload_watchdog_none]
    have hcnt : s4.watcherCounter = s.watcherCounter := by
      rw [hcnt0, unload_watcherCounter]
    constructor
    · rw [hs', start_filewatcher_fresh s4 h4, hcnt]
    · omega

theorem watcher_lifecycle_witness :
    (loadResultState (load demoWorld 9 ((_unload demoLoaded).1)) demoLoaded).watchdog
      = some demoLoaded.watcherCounter ∧
    demoLoaded.watcherCounter ≠ 0 :=
  (watcher_lifecycle demoWorld 9 demoLoaded).2.2.2.2 0
    (loadResultVal (load demoWorld 9 ((_unload demoLoaded).1)))
    (loadResultState (load demoWorld 9 ((_unload demoLoaded).1)) demoLoaded)
    (loadResultTrace (load demoWorld 9 ((_unload demoLoaded).1)))
    (by decide) (by decide) (by decide)

/-! ## Witnesses for C1, C2 and C3 -/

theorem load_status_and_events_witness :
    (loadResultState (load demoWorld 5 demoStart) demoStart).inst.isSome = true ∧
    ∃ e, emittedEvents (loadResultTrace (load demoWorld 5 demoStart)) = [e] ∧
      e.msg_type = "mycroft.skills.loaded" ∧
      e.payload.map Prod.fst = ["path", "id", "name"] :=
  (load_status_and_events demoWorld 5 demoStart
      (loadResultVal (load demoWorld 5 demoStart))
      (loadResultState (load demoWorld 5 demoStart) demoStart)
      (loadResultTrace (load demoWorld 5 demoStart)) (by decide)).1 (by decide)

def demoSysM : SysModules :=
  [("skill_test.util", ⟨0, ["old_helper"]⟩), ("skill_test", ⟨0, ["OldSkill"]⟩),
   ("other", ⟨0, ["Other"]⟩)]

def demoDisk : List (String × DiskSource) :=
  [("/skills/test/__init__.py", ⟨["NewSkill"], [("util", ["new_helper"])]⟩)]

def demoLSM : Except Unit (ModuleObj × SysModules) :=
  load_skill_module demoSysM demoDisk "/skills/test/__init__.py" "skill.test" 1

def lsmResultMod (x : Except Unit (ModuleObj × SysModules)) : ModuleObj :=
  match x with
  | .ok (m, _) => m
  | .error _ => ⟨0, []⟩

def lsmResultSys (x : Except Unit (ModuleObj × SysModules)) : SysModules :=
  match x with
  | .ok (_, sysM) => sysM
  | .error _ => []

theorem load_skill_module_purges_stale_witness :
    (remove_submodule_refs demoSysM (replaceDots "skill.test")).lookup
      "skill_test.util" = none ∧
    (lsmResultSys demoLSM).lookup (replaceDots "skill.test")
      = some (lsmResultMod demoLSM) :=
  ⟨(load_skill_module_purges_stale demoSysM demoDisk "/skills/test/__init__.py"
      "skill.test" 1 (lsmResultMod demoLSM) (lsmResultSys demoLSM) (by decide)).1
      "skill_test.util" (by decide),
   (load_skill_module_purges_stale demoSysM demoDisk "/skills/test/__init__.py"
      "skill.test" 1 (lsmResultMod demoLSM) (lsmResultSys demoLSM) (by decide)).2.2.1⟩

/-- A local intermediate base class deriving from `OVOSSkill`, and its
subclass; resolution must return the subclass. -/
def demoB : PyClass := ⟨100, [100, 2, 1, 0]⟩

def demoS : PyClass := ⟨101, [101, 100, 2, 1, 0]⟩

def demoEntries : List (String × PyObj) :=
  [("B", .cls demoB), ("S", .cls demoS), ("helper", .nonclass)]

theorem get_skill_class_resolution_witness :
    ∃ c, get_skill_class (.module demoEntries) = some (.cls c) ∧
      c ∈ initialCandidates demoEntries ∧
      ∀ z ∈ initialCandidates demoEntries, z ≠ c → pyIssubclass z c = false :=
  (get_skill_class_resolution demoEntries (by decide) (by decide)
    (by decide)).2.2.2 (by decide)

end OVOS
